import Mathlib

/-!
Verification development for `custom_components/tuya_ble/number.py`.

The Python module is shallowly embedded: numeric Python values are modelled
as `ℚ` (user-facing floats) and `ℤ`/`ℕ` (stored datapoint integers and byte
values), byte strings as `List ℕ`, and code that can raise a Python
exception returns `Except PyError _`.  The device datapoint store and the
product capability record are external collaborators of the module (they
live in `tuya_ble.py` / `devices.py`); they are modelled from the spec's
external-interface section: `get(dp_id)` returns the datapoint or absent,
`set_value` replaces the stored value.
-/

set_option maxRecDepth 8192

/-- Python runtime errors that the embedded fragments can raise. -/
inductive PyError
  | nameError
  | attributeError
  | indexError
  | typeError
  | valueError
  | overflowError
  | zeroDivisionError
deriving DecidableEq, Repr

/-- A datapoint value: the module's data model stores integers or byte
sequences (`bytes`); a byte sequence is a list of byte values. -/
inductive DPValue
  | intVal (n : ℤ)
  | bytesVal (bs : List ℕ)
deriving DecidableEq, Repr

/-- The device's datapoint store, modelled from the spec's external
interface (`get(dp_id) -> Datapoint | absent`) as an association list from
datapoint id to current value. -/
abbrev Datapoints := List (ℕ × DPValue)

/-- Embedding of `device.datapoints[id]`: the stored datapoint, or `none` when the device
has not reported it (the store returns a falsy result for absent ids). -/
def dpsGet (dps : Datapoints) (id : ℕ) : Option DPValue :=
  List.lookup id dps

/-- Effect of `datapoint.set_value(v)` on the store: the datapoint now holds
`v`; other datapoints are unchanged. -/
def dpsSet (dps : Datapoints) (id : ℕ) (v : DPValue) : Datapoints :=
  (id, v) :: dps.filter (fun p => p.1 != id)

/-- Embedding of `device.datapoints.has_id(id, dp_type)`; every descriptor in this module
leaves `dp_type` as `None`, so the filter is vacuous. -/
def dpsHasId (dps : Datapoints) (id : ℕ) : Bool :=
  (dpsGet dps id).isSome

/-- Python `int()` applied to a float: truncation toward zero. -/
def pyTrunc (q : ℚ) : ℤ :=
  if q < 0 then -⌊-q⌋ else ⌊q⌋

/-- Python `round()` applied to a float: round half to even. -/
def pyRound (q : ℚ) : ℤ :=
  if q - (⌊q⌋ : ℚ) < 1 / 2 then ⌊q⌋
  else if (1 : ℚ) / 2 < q - (⌊q⌋ : ℚ) then ⌊q⌋ + 1
  else if ⌊q⌋ % 2 = 0 then ⌊q⌋ else ⌊q⌋ + 1

/-- Python `int.from_bytes(bs, "big")`. -/
def intFromBytesBE (bs : List ℕ) : ℕ :=
  bs.foldl (fun a b => a * 256 + b) 0

/-- The two bytes produced by `int.to_bytes(n, 2, "big")` for
`0 ≤ n < 65536`. -/
def toBytesBE2 (n : ℕ) : List ℕ :=
  [n / 256, n % 256]

/-- Modelled from the spec: the fingerbot capability record of
`TuyaBLEProductInfo` (external module `devices.py`, not under `src/`): the
mode datapoint id and, when configured, the program datapoint id. -/
structure FingerbotInfo where
  mode : ℕ
  program : Option ℕ
deriving DecidableEq, Repr

/-- Modelled from the spec: the product capability descriptor handed to the
predicates; only the fingerbot capability is consulted by this module. -/
structure TuyaBLEProductInfo where
  fingerbot : Option FingerbotInfo := none
deriving DecidableEq, Repr

/-- Python `datapoint.value == 2`: true only for the integer 2 (a `bytes`
value never compares equal to an int). -/
def dpIsInt2 : DPValue → Bool
  | .intVal n => n == 2
  | .bytesVal _ => false

/-- Embedding of `is_fingerbot_repeat_count_available` (number.py lines 99-114): start
from `result = True`; when the product is a fingerbot with a program
datapoint configured, check `mode == 2` against the mode datapoint if
present, and when that leaves the result true, check the 16-bit big-endian
prefix of the program datapoint's bytes against the sentinel `0xFFFF`. -/
def is_fingerbot_repeat_count_available
    (p : TuyaBLEProductInfo) (dps : Datapoints) : Bool :=
  match p.fingerbot with
  | none => true
  | some fb =>
    match fb.program with
    | none => true
    | some prog =>
      let result :=
        match dpsGet dps fb.mode with
        | some dp => dpIsInt2 dp
        | none => true
      if result then
        match dpsGet dps prog with
        | some (.bytesVal bs) => intFromBytesBE (bs.take 2) != 0xFFFF
        | _ => result
      else result

/-- Embedding of `get_fingerbot_program_repeat_count` (lines 117-128): decode the 16-bit
big-endian prefix of the program datapoint's bytes; `None` when the product
has no program datapoint configured, the datapoint is absent, or its value
is not `bytes`.  A byte slice never raises, so this getter is total. -/
def get_fingerbot_program_repeat_count
    (p : TuyaBLEProductInfo) (dps : Datapoints) : Option ℚ :=
  match p.fingerbot with
  | none => none
  | some fb =>
    match fb.program with
    | none => none
    | some prog =>
      match dpsGet dps prog with
      | some (.bytesVal bs) => some ((intFromBytesBE (bs.take 2) : ℚ))
      | _ => none

/-- Embedding of `set_fingerbot_program_repeat_count` (lines 131-143): when the program
datapoint holds bytes, write `int.to_bytes(int(value), 2, "big")` followed
by the payload from offset 2 on; `to_bytes` raises `OverflowError` outside
`[0, 65536)`.  Returns the store after the scheduled write. -/
def set_fingerbot_program_repeat_count
    (p : TuyaBLEProductInfo) (dps : Datapoints) (value : ℚ) :
    Except PyError Datapoints :=
  match p.fingerbot with
  | none => .ok dps
  | some fb =>
    match fb.program with
    | none => .ok dps
    | some prog =>
      match dpsGet dps prog with
      | some (.bytesVal bs) =>
        let t := pyTrunc value
        if 0 ≤ t ∧ t < 65536 then
          .ok (dpsSet dps prog (.bytesVal (toBytesBE2 t.toNat ++ bs.drop 2)))
        else
          .error .overflowError
      | _ => .ok dps

/-- Embedding of `get_fingerbot_program_position` (lines 146-156): read byte index 2 of
the program datapoint's bytes; indexing raises `IndexError` when the
payload is shorter than 3 bytes. -/
def get_fingerbot_program_position
    (p : TuyaBLEProductInfo) (dps : Datapoints) :
    Except PyError (Option ℚ) :=
  match p.fingerbot with
  | none => .ok none
  | some fb =>
    match fb.program with
    | none => .ok none
    | some prog =>
      match dpsGet dps prog with
      | some (.bytesVal bs) =>
        match bs.get? 2 with
        | some b => .ok (some ((b : ℚ)))
        | none => .error .indexError
      | _ => .ok none

/-- Embedding of `set_fingerbot_program_position` (lines 159-169): copy the payload into
a byte array and assign index 2; the assignment raises `IndexError` when the
payload is shorter than 3 bytes and `ValueError` when the value is outside
`[0, 256)` (the index check comes first).  Returns the store after the
scheduled write. -/
def set_fingerbot_program_position
    (p : TuyaBLEProductInfo) (dps : Datapoints) (value : ℚ) :
    Except PyError Datapoints :=
  match p.fingerbot with
  | none => .ok dps
  | some fb =>
    match fb.program with
    | none => .ok dps
    | some prog =>
      match dpsGet dps prog with
      | some (.bytesVal bs) =>
        if 2 < bs.length then
          let t := pyTrunc value
          if 0 ≤ t ∧ t < 256 then
            .ok (dpsSet dps prog (.bytesVal (bs.set 2 t.toNat)))
          else
            .error .valueError
        else
          .error .indexError
      | _ => .ok dps

/-- Entity mode of a number descriptor (`NumberMode`). -/
inductive NumberMode
  | box
  | slider
deriving DecidableEq, Repr

/-- Defunctionalized `TuyaBLENumberGetter`: the registry stores either no
getter or a reference to one of the module's getter functions. -/
inductive TuyaBLENumberGetter
  | none
  | get_fingerbot_program_repeat_count
  | get_fingerbot_program_position
deriving DecidableEq, Repr

/-- Defunctionalized `TuyaBLENumberSetter`. -/
inductive TuyaBLENumberSetter
  | none
  | set_fingerbot_program_repeat_count
  | set_fingerbot_program_position
deriving DecidableEq, Repr

/-- Defunctionalized `TuyaBLENumberIsAvailable`. -/
inductive TuyaBLENumberIsAvailable
  | none
  | is_fingerbot_in_program_mode
  | is_fingerbot_not_in_program_mode
  | is_fingerbot_in_push_mode
  | is_fingerbot_repeat_count_available
deriving DecidableEq, Repr

/-- Display metadata of a number descriptor (`NumberEntityDescription`);
only the fields this module sets are modelled. -/
structure NumberEntityDescription where
  key : String
  name : Option String := none
  icon : Option String := none
  device_class : Option String := none
  native_max_value : ℚ
  native_min_value : ℚ
  native_unit_of_measurement : Option String := none
  native_step : ℚ := 1
  entity_category : Option String := none
deriving DecidableEq, Repr

/-- Embedding of `TuyaBLENumberMapping`: a direct, datapoint-backed control descriptor. -/
structure TuyaBLENumberMapping where
  dp_id : ℕ
  description : NumberEntityDescription
  force_add : Bool := true
  dp_type : Option String := none
  coefficient : ℚ := 1
  is_available : TuyaBLENumberIsAvailable := .none
  getter : TuyaBLENumberGetter := .none
  setter : TuyaBLENumberSetter := .none
  mode : NumberMode := .box
deriving DecidableEq, Repr

/-- Embedding of `TuyaBLEVirtualNumberMapping`: a virtual descriptor with no `dp_id`. -/
structure TuyaBLEVirtualNumberMapping where
  description : NumberEntityDescription
  force_add : Bool := true
  is_available : TuyaBLENumberIsAvailable := .none
  getter : TuyaBLENumberGetter := .none
  setter : TuyaBLENumberSetter := .none
  mode : NumberMode := .box
  default_value : ℚ := 3600
deriving DecidableEq, Repr

/-- A registry list element: Python lists mix both descriptor variants. -/
inductive NumberMappingEntry
  | direct (m : TuyaBLENumberMapping)
  | virtualEntry (m : TuyaBLEVirtualNumberMapping)
deriving DecidableEq, Repr

/-- Embedding of `TuyaBLECategoryNumberMapping`: per-category registry entry with an
optional product map and an optional category-level fallback list. -/
structure TuyaBLECategoryNumberMapping where
  products : Option (List (String × List NumberMappingEntry)) := none
  mapping : Option (List NumberMappingEntry) := none
deriving DecidableEq, Repr

/-- Insertion of one key into a Python dict display: a repeated key
overwrites the value stored for it. -/
def dictInsert {α : Type} (d : List (String × α)) (k : String) (v : α) :
    List (String × α) :=
  if d.any (fun p => p.1 == k) then
    d.map (fun p => if p.1 == k then (k, v) else p)
  else
    d ++ [(k, v)]

/-- Semantics of a Python dict display: keys are inserted in order, later
duplicates silently replacing earlier ones. -/
def dictLit {α : Type} (ps : List (String × α)) : List (String × α) :=
  ps.foldl (fun d p => dictInsert d p.1 p.2) []

/-- Home Assistant unit constant `PERCENTAGE`. -/
def PERCENTAGE : String := "%"

/-- Home Assistant unit constant `UnitOfTime.SECONDS`. -/
def SECONDS : String := "s"

/-- Home Assistant unit constant `UnitOfTime.MINUTES`. -/
def MINUTES : String := "min"

/-- Home Assistant unit constant `UnitOfTemperature.CELSIUS`. -/
def CELSIUS : String := "°C"

/-- Home Assistant unit constant `UnitOfVolume.MILLILITERS`. -/
def MILLILITERS : String := "mL"

/-- Home Assistant unit constant `CONCENTRATION_PARTS_PER_MILLION`. -/
def PARTS_PER_MILLION : String := "ppm"

/-- Embedding of `TuyaBLEDownPositionDescription` dataclass defaults. -/
def TuyaBLEDownPositionDescription : NumberEntityDescription :=
  { key := "down_position", icon := some "mdi:arrow-down-bold",
    native_max_value := 100, native_min_value := 51,
    native_unit_of_measurement := some PERCENTAGE, native_step := 1,
    entity_category := some "config" }

/-- Embedding of `TuyaBLEUpPositionDescription` dataclass defaults. -/
def TuyaBLEUpPositionDescription : NumberEntityDescription :=
  { key := "up_position", icon := some "mdi:arrow-up-bold",
    native_max_value := 50, native_min_value := 0,
    native_unit_of_measurement := some PERCENTAGE, native_step := 1,
    entity_category := some "config" }

/-- Embedding of `TuyaBLEHoldTimeDescription` dataclass defaults. -/
def TuyaBLEHoldTimeDescription : NumberEntityDescription :=
  { key := "hold_time", icon := some "mdi:timer",
    native_max_value := 10, native_min_value := 0,
    native_unit_of_measurement := some SECONDS, native_step := 1,
    entity_category := some "config" }

/-- Embedding of `TuyaBLEHoldTimeMapping(dp_id=...)`: hold-time descriptor whose
availability defaults to the push-mode predicate. -/
def TuyaBLEHoldTimeMapping (dp_id : ℕ) : TuyaBLENumberMapping :=
  { dp_id := dp_id, description := TuyaBLEHoldTimeDescription,
    is_available := .is_fingerbot_in_push_mode }

/-- Smart Water Valve `time_use` descriptor (category sfkzq, dp 9). -/
def time_use_mapping : TuyaBLENumberMapping where
  dp_id := 9
  description :=
    { key := "time_use", icon := some "mdi:timer",
      native_max_value := 2592000, native_min_value := 0,
      native_unit_of_measurement := some SECONDS, native_step := 1,
      entity_category := some "config" }

/-- Smart Water Valve `countdown` descriptor (dp 11). -/
def countdown_mapping : TuyaBLENumberMapping where
  dp_id := 11
  description :=
    { key := "countdown", icon := some "mdi:timer-outline",
      native_max_value := 86400, native_min_value := 0,
      native_unit_of_measurement := some SECONDS, native_step := 1,
      entity_category := some "config" }

/-- Virtual `watering_duration` descriptor with `default_value=900`. -/
def watering_duration_mapping : TuyaBLEVirtualNumberMapping where
  description :=
    { key := "watering_duration", name := some "Watering Duration",
      icon := some "mdi:water-timer",
      native_max_value := 86400, native_min_value := 60,
      native_unit_of_measurement := some SECONDS, native_step := 60,
      entity_category := some "config" }
  default_value := 900

/-- Product list for the Smart Water Valve `nxquc5lb`. -/
def sfkzq_nxquc5lb : List NumberMappingEntry :=
  [.direct time_use_mapping, .direct countdown_mapping,
   .virtualEntry watering_duration_mapping]

/-- CO2 detector `brightness` descriptor (dp 17, slider mode). -/
def brightness_mapping : TuyaBLENumberMapping where
  dp_id := 17
  description :=
    { key := "brightness", icon := some "mdi:brightness-percent",
      native_max_value := 100, native_min_value := 0,
      native_unit_of_measurement := some PERCENTAGE, native_step := 1,
      entity_category := some "config" }
  mode := .slider

/-- CO2 detector alarm-level descriptor (dp 26). -/
def carbon_dioxide_alarm_level_mapping : TuyaBLENumberMapping where
  dp_id := 26
  description :=
    { key := "carbon_dioxide_alarm_level", icon := some "mdi:molecule-co2",
      native_max_value := 5000, native_min_value := 400,
      native_unit_of_measurement := some PARTS_PER_MILLION,
      native_step := 100, entity_category := some "config" }

/-- Product list for the CO2 detector `59s19z5m`. -/
def co2bj_59s19z5m : List NumberMappingEntry :=
  [.direct brightness_mapping, .direct carbon_dioxide_alarm_level_mapping]

/-- Product list shared by the CubeTouch 1s and II. -/
def szjqr_cubetouch : List NumberMappingEntry :=
  [.direct (TuyaBLEHoldTimeMapping 3),
   .direct
     { dp_id := 5,
       description :=
         { TuyaBLEUpPositionDescription with native_max_value := 100 } },
   .direct
     { dp_id := 6,
       description :=
         { TuyaBLEDownPositionDescription with native_min_value := 0 } }]

/-- Program repeat-count descriptor used by the Fingerbot Plus variants. -/
def program_repeats_count_mapping (dp_id : ℕ) : TuyaBLENumberMapping where
  dp_id := dp_id
  description :=
    { key := "program_repeats_count", icon := some "mdi:repeat",
      native_max_value := 0xFFFE, native_min_value := 1, native_step := 1,
      entity_category := some "config" }
  is_available := .is_fingerbot_repeat_count_available
  getter := .get_fingerbot_program_repeat_count
  setter := .set_fingerbot_program_repeat_count

/-- Program idle-position descriptor used by the Fingerbot Plus variants. -/
def program_idle_position_mapping (dp_id : ℕ) : TuyaBLENumberMapping where
  dp_id := dp_id
  description :=
    { key := "program_idle_position", icon := some "mdi:repeat",
      native_max_value := 100, native_min_value := 0, native_step := 1,
      native_unit_of_measurement := some PERCENTAGE,
      entity_category := some "config" }
  is_available := .is_fingerbot_in_program_mode
  getter := .get_fingerbot_program_position
  setter := .set_fingerbot_program_position

/-- Fingerbot down-position descriptor, gated off in program mode. -/
def fingerbot_down_position_mapping (dp_id : ℕ) : TuyaBLENumberMapping where
  dp_id := dp_id
  description := TuyaBLEDownPositionDescription
  is_available := .is_fingerbot_not_in_program_mode

/-- Fingerbot up-position descriptor, gated off in program mode. -/
def fingerbot_up_position_mapping (dp_id : ℕ) : TuyaBLENumberMapping where
  dp_id := dp_id
  description := TuyaBLEUpPositionDescription
  is_available := .is_fingerbot_not_in_program_mode

/-- Product list shared by the szjqr Fingerbot Plus products. -/
def szjqr_fingerbot_plus : List NumberMappingEntry :=
  [.direct (fingerbot_down_position_mapping 9),
   .direct (TuyaBLEHoldTimeMapping 10),
   .direct (fingerbot_up_position_mapping 15),
   .direct (program_repeats_count_mapping 121),
   .direct (program_idle_position_mapping 121)]

/-- Plain Fingerbot hold-time descriptor: step 0.1 and coefficient 10. -/
def fingerbot_hold_time_tenths_mapping : TuyaBLENumberMapping where
  dp_id := 10
  description := { TuyaBLEHoldTimeDescription with native_step := 0.1 }
  coefficient := 10
  is_available := .is_fingerbot_in_push_mode

/-- Product list shared by the plain Fingerbot products. -/
def szjqr_fingerbot : List NumberMappingEntry :=
  [.direct (fingerbot_down_position_mapping 9),
   .direct fingerbot_hold_time_tenths_mapping,
   .direct (fingerbot_up_position_mapping 15)]

/-- Product list shared by the kg Fingerbot Plus products. -/
def kg_fingerbot_plus : List NumberMappingEntry :=
  [.direct (fingerbot_down_position_mapping 102),
   .direct (TuyaBLEHoldTimeMapping 103),
   .direct (fingerbot_up_position_mapping 106),
   .direct (program_repeats_count_mapping 109),
   .direct (program_idle_position_mapping 109)]

/-- Thermostatic Radiator Valve calibration descriptor (dp 27). -/
def temperature_calibration_mapping : TuyaBLENumberMapping where
  dp_id := 27
  description :=
    { key := "temperature_calibration", icon := some "mdi:thermometer-lines",
      native_max_value := 6, native_min_value := -6,
      native_unit_of_measurement := some CELSIUS, native_step := 1,
      entity_category := some "config" }

/-- Product list shared by the Thermostatic Radiator Valve products. -/
def wk_trv : List NumberMappingEntry :=
  [.direct temperature_calibration_mapping]

/-- Soil moisture sensor reporting-period descriptor (dp 17). -/
def reporting_period_mapping : TuyaBLENumberMapping where
  dp_id := 17
  description :=
    { key := "reporting_period", icon := some "mdi:timer",
      native_max_value := 120, native_min_value := 1,
      native_unit_of_measurement := some MINUTES, native_step := 1,
      entity_category := some "config" }

/-- Product list for the soil moisture sensor `ojzlzzsw`. -/
def wsdcg_ojzlzzsw : List NumberMappingEntry :=
  [.direct reporting_period_mapping]

/-- Smart water bottle intake descriptor (dp 103). -/
def recommended_water_intake_mapping : TuyaBLENumberMapping where
  dp_id := 103
  description :=
    { key := "recommended_water_intake", device_class := some "water",
      native_max_value := 5000, native_min_value := 0,
      native_unit_of_measurement := some MILLILITERS, native_step := 1,
      entity_category := some "config" }

/-- Product list for the smart water bottle `cdlandip`. -/
def znhsb_cdlandip : List NumberMappingEntry :=
  [.direct recommended_water_intake_mapping]

/-- Product list for the irrigation computer `6pahkcau`. -/
def ggq_6pahkcau : List NumberMappingEntry :=
  [.direct
     { dp_id := 5,
       description :=
         { key := "countdown_duration", icon := some "mdi:timer",
           native_max_value := 1440, native_min_value := 1,
           native_unit_of_measurement := some MINUTES, native_step := 1 } }]

/-- First `"hfgdqhho"` list in the source (irrigation computer SGW08). -/
def ggq_hfgdqhho_sgw08 : List NumberMappingEntry :=
  [.direct
     { dp_id := 106,
       description :=
         { key := "countdown_duration_1", name := some "CH1 Countdown",
           icon := some "mdi:timer",
           native_max_value := 1440, native_min_value := 1,
           native_unit_of_measurement := some MINUTES, native_step := 1 } },
   .direct
     { dp_id := 103,
       description :=
         { key := "countdown_duration_2", name := some "CH2 Countdown",
           icon := some "mdi:timer",
           native_max_value := 1440, native_min_value := 1,
           native_unit_of_measurement := some MINUTES, native_step := 1 } }]

/-- Second `"hfgdqhho"` list in the source (irrigation computer SGW02). -/
def ggq_hfgdqhho_sgw02 : List NumberMappingEntry :=
  [.direct
     { dp_id := 106,
       description :=
         { key := "countdown_duration_z1", icon := some "mdi:timer",
           native_max_value := 1440, native_min_value := 1,
           native_unit_of_measurement := some MINUTES, native_step := 1 } },
   .direct
     { dp_id := 103,
       description :=
         { key := "countdown_duration_z2", icon := some "mdi:timer",
           native_max_value := 1440, native_min_value := 1,
           native_unit_of_measurement := some MINUTES, native_step := 1 } }]

/-- The `"ggq"` products dict display as written in the source: the key
`"hfgdqhho"` appears twice with different lists. -/
def ggq_products_literal : List (String × List NumberMappingEntry) :=
  [("6pahkcau", ggq_6pahkcau),
   ("hfgdqhho", ggq_hfgdqhho_sgw08),
   ("hfgdqhho", ggq_hfgdqhho_sgw02)]

/-- Registry entry for category `"sfkzq"`. -/
def sfkzq_category : TuyaBLECategoryNumberMapping where
  products := some (dictLit [("nxquc5lb", sfkzq_nxquc5lb)])

/-- Registry entry for category `"co2bj"`. -/
def co2bj_category : TuyaBLECategoryNumberMapping where
  products := some (dictLit [("59s19z5m", co2bj_59s19z5m)])

/-- Registry entry for category `"szjqr"`; the `dict.fromkeys` calls expand
to one key per product id, all sharing one descriptor list. -/
def szjqr_category : TuyaBLECategoryNumberMapping where
  products := some (dictLit
    [("3yqdo5yt", szjqr_cubetouch), ("xhf790if", szjqr_cubetouch),
     ("blliqpsj", szjqr_fingerbot_plus), ("ndvkgsrm", szjqr_fingerbot_plus),
     ("yiihr7zh", szjqr_fingerbot_plus), ("neq16kgd", szjqr_fingerbot_plus),
     ("ltak7e1p", szjqr_fingerbot), ("y6kttvd6", szjqr_fingerbot),
     ("yrnk7mnn", szjqr_fingerbot), ("nvr2rocq", szjqr_fingerbot),
     ("bnt7wajf", szjqr_fingerbot), ("rvdceqjh", szjqr_fingerbot),
     ("5xhbk964", szjqr_fingerbot)])

/-- Registry entry for category `"kg"`. -/
def kg_category : TuyaBLECategoryNumberMapping where
  products := some (dictLit
    [("mknd4lci", kg_fingerbot_plus), ("riecov42", kg_fingerbot_plus)])

/-- Registry entry for category `"wk"`. -/
def wk_category : TuyaBLECategoryNumberMapping where
  products := some (dictLit
    [("drlajpqc", wk_trv), ("nhj2j7su", wk_trv), ("zmachryv", wk_trv)])

/-- Registry entry for category `"wsdcg"`. -/
def wsdcg_category : TuyaBLECategoryNumberMapping where
  products := some (dictLit [("ojzlzzsw", wsdcg_ojzlzzsw)])

/-- Registry entry for category `"znhsb"`. -/
def znhsb_category : TuyaBLECategoryNumberMapping where
  products := some (dictLit [("cdlandip", znhsb_cdlandip)])

/-- Registry entry for category `"ggq"`, built from the dict display with
the duplicated `"hfgdqhho"` key. -/
def ggq_category : TuyaBLECategoryNumberMapping where
  products := some (dictLit ggq_products_literal)

/-- The module-level registry `mapping` (number.py lines 231-592). -/
def mapping : List (String × TuyaBLECategoryNumberMapping) :=
  dictLit
    [("sfkzq", sfkzq_category), ("co2bj", co2bj_category),
     ("szjqr", szjqr_category), ("kg", kg_category), ("wk", wk_category),
     ("wsdcg", wsdcg_category), ("znhsb", znhsb_category),
     ("ggq", ggq_category)]

/-- Embedding of `get_mapping_by_device` (lines 595-606); in the source the registry
argument is the module-level `mapping` table and the device supplies its
category and product id. -/
def get_mapping_by_device
    (reg : List (String × TuyaBLECategoryNumberMapping))
    (category product_id : String) : List NumberMappingEntry :=
  match List.lookup category reg with
  | some cat =>
    match cat.products with
    | some pm =>
      match List.lookup product_id pm with
      | some product_mapping => product_mapping
      | none =>
        match cat.mapping with
        | some fallback => fallback
        | none => []
    | none => []
  | none => []

/-- Embedding of `TuyaBLENumber.native_value` (lines 624-634), over either descriptor
variant since `async_setup_entry` wraps both in this adapter class: a
configured getter is delegated to; otherwise the bound datapoint is read
through `self._mapping.dp_id` — an attribute a virtual descriptor does not
have, so that access raises `AttributeError`.  A present integer datapoint
yields `value / coefficient` (`ZeroDivisionError` on a zero coefficient, a
`TypeError` on a bytes value); an absent datapoint yields the descriptor's
configured minimum. -/
def TuyaBLENumber.native_value (e : NumberMappingEntry)
    (p : TuyaBLEProductInfo) (dps : Datapoints) :
    Except PyError (Option ℚ) :=
  let runGetter : TuyaBLENumberGetter → Except PyError (Option ℚ)
    | .get_fingerbot_program_repeat_count =>
      .ok (get_fingerbot_program_repeat_count p dps)
    | .get_fingerbot_program_position =>
      get_fingerbot_program_position p dps
    | .none => .error .attributeError
  match e with
  | .direct m =>
    match m.getter with
    | .none =>
      match dpsGet dps m.dp_id with
      | some (.intVal n) =>
        if m.coefficient = 0 then .error .zeroDivisionError
        else .ok (some ((n : ℚ) / m.coefficient))
      | some (.bytesVal _) => .error .typeError
      | none => .ok (some m.description.native_min_value)
    | g => runGetter g
  | .virtualEntry m =>
    match m.getter with
    | .none => .error .attributeError
    | g => runGetter g

/-- Embedding of `TuyaBLENumber.set_native_value` (lines 636-648): a configured setter is
delegated to; otherwise `int(value * coefficient)` is computed and written
to the datapoint obtained or created under `dp_id` — again an attribute a
virtual descriptor lacks (its coefficient access already raises first).
Returns the store after the scheduled write. -/
def TuyaBLENumber.set_native_value (e : NumberMappingEntry)
    (p : TuyaBLEProductInfo) (dps : Datapoints) (value : ℚ) :
    Except PyError Datapoints :=
  let runSetter : TuyaBLENumberSetter → Except PyError Datapoints
    | .set_fingerbot_program_repeat_count =>
      set_fingerbot_program_repeat_count p dps value
    | .set_fingerbot_program_position =>
      set_fingerbot_program_position p dps value
    | .none => .error .attributeError
  match e with
  | .direct m =>
    match m.setter with
    | .none =>
      .ok (dpsSet dps m.dp_id (.intVal (pyTrunc (value * m.coefficient))))
    | s => runSetter s
  | .virtualEntry m =>
    match m.setter with
    | .none => .error .attributeError
    | s => runSetter s

/-- The `force_add` attribute read by `async_setup_entry`; both descriptor
variants define it. -/
def entryForceAdd : NumberMappingEntry → Bool
  | .direct m => m.force_add
  | .virtualEntry m => m.force_add

/-- The `datapoints.has_id(mapping.dp_id, mapping.dp_type)` call of
`async_setup_entry`: a virtual descriptor has no `dp_id` attribute, so the
access raises `AttributeError`. -/
def entryHasId (dps : Datapoints) : NumberMappingEntry → Except PyError Bool
  | .direct m => .ok (dpsHasId dps m.dp_id)
  | .virtualEntry _ => .error .attributeError

/-- An entity constructed during setup.  `async_setup_entry` only ever
constructs `TuyaBLENumber`; the `virtualNumber` alternative records what a
`TuyaBLEVirtualNumber` construction would be, which never occurs. -/
inductive ConstructedEntity
  | number (e : NumberMappingEntry)
  | virtualNumber (m : TuyaBLEVirtualNumberMapping)
deriving DecidableEq, Repr

/-- One iteration of the `async_setup_entry` loop: append a `TuyaBLENumber`
when `force_add` holds or the store already has the datapoint; `force_add`
short-circuits the `or`, so the `dp_id` access in `has_id` is only
attempted when `force_add` is false. -/
def setupStep (dps : Datapoints) (entities : List ConstructedEntity)
    (e : NumberMappingEntry) : Except PyError (List ConstructedEntity) :=
  if entryForceAdd e then
    .ok (entities ++ [ConstructedEntity.number e])
  else
    match entryHasId dps e with
    | .ok true => .ok (entities ++ [ConstructedEntity.number e])
    | .ok false => .ok entities
    | .error err => .error err

/-- Embedding of `async_setup_entry` (lines 737-759): run the loop over every resolved
descriptor, constructing only `TuyaBLENumber` adapters. -/
def async_setup_entry
    (reg : List (String × TuyaBLECategoryNumberMapping))
    (category product_id : String) (dps : Datapoints) :
    Except PyError (List ConstructedEntity) :=
  (get_mapping_by_device reg category product_id).foldlM (setupStep dps) []

/-- True of an entity constructed as a `TuyaBLENumber`. -/
def isNumberEntity : ConstructedEntity → Bool
  | .number _ => true
  | .virtualNumber _ => false

/-- True when every entity the setup produced is a `TuyaBLENumber`. -/
def allConstructedAreNumber : Except PyError (List ConstructedEntity) → Bool
  | .ok entities => entities.all isNumberEntity
  | .error _ => true

/-- Whether the module's import statements bind the name `os` (they also
never bind `json`): number.py lines 1-33 import from dataclasses, logging,
typing, homeassistant and the integration's own modules only, so the first
`os.` reference in the virtual-entity code raises `NameError`. -/
def osImported : Bool := false

/-- Host-level last-known state returned by `async_get_last_state`,
modelled from the spec's restore interface: a state string that parses as a
float, one that does not, or the literal "unknown"/"unavailable" states. -/
inductive LastKnownState
  | numeric (q : ℚ)
  | nonNumeric
  | unknownOrUnavailable
deriving DecidableEq, Repr

/-- Restore sources visible to a virtual entity: the host-level last-known
state, and the local per-entity record
(`.storage/tuya_ble_virtual_<unique_id>.json`); `some (some q)` is a
record whose "value" field parses as a float, `some none` one that does
not parse. -/
structure VirtualRestoreEnv where
  lastState : Option LastKnownState := none
  storageRecord : Option (Option ℚ) := none
deriving DecidableEq, Repr

/-- Embedding of `TuyaBLEVirtualNumber.__init__` (lines 661-693): the in-memory value
starts at the descriptor's `default_value`. -/
def TuyaBLEVirtualNumber.initial_value
    (m : TuyaBLEVirtualNumberMapping) : ℚ :=
  m.default_value

/-- Embedding of `TuyaBLEVirtualNumber.async_added_to_hass` (lines 695-720): first
restore the host last-known state when present, not unknown/unavailable,
and parsing as a float (a parse failure sets the default); the local-record
block then begins with `os.makedirs`, which raises `NameError` because `os`
is unbound, keeping the value set so far and never reading the record.
Were `os`/`json` bound, a parsable local record would overwrite the value
regardless of the host state. -/
def TuyaBLEVirtualNumber.async_added_to_hass
    (m : TuyaBLEVirtualNumberMapping) (cur : ℚ)
    (env : VirtualRestoreEnv) : ℚ × Except PyError Unit :=
  let restored :=
    match env.lastState with
    | some (.numeric q) => q
    | some .nonNumeric => m.default_value
    | some .unknownOrUnavailable => cur
    | none => cur
  if osImported then
    match env.storageRecord with
    | some (some q) => (q, .ok ())
    | _ => (restored, .ok ())
  else
    (restored, .error .nameError)

/-- Embedding of `TuyaBLEVirtualNumber.async_set_native_value` (lines 722-734): the
in-memory value and the host state are updated first; the save path is then
computed with `os.path.join`, which raises `NameError` outside the `try`
block, so the local record is never written. -/
def TuyaBLEVirtualNumber.async_set_native_value
    (value : ℚ) (env : VirtualRestoreEnv) :
    ℚ × VirtualRestoreEnv × Except PyError Unit :=
  if osImported then
    (value, { env with storageRecord := some (some value) }, .ok ())
  else
    (value, env, .error .nameError)

/-- The mode condition as the claim words it: the mode datapoint's value
equals 2, an absent datapoint counting as satisfied. -/
def modeConditionSatisfied (dps : Datapoints) (modeId : ℕ) : Bool :=
  match dpsGet dps modeId with
  | some dp => dpIsInt2 dp
  | none => true

/-- The program condition as the claim words it: the 16-bit big-endian
integer decoded from bytes [0:2] of the program datapoint's byte value is
not 0xFFFF, an absent or non-bytes datapoint counting as satisfied. -/
def programConditionSatisfied (dps : Datapoints) (progId : ℕ) : Bool :=
  match dpsGet dps progId with
  | some (.bytesVal bs) => intFromBytesBE (bs.take 2) != 0xFFFF
  | _ => true

/-- True when the program datapoint currently holds a bytes value. -/
def programPayloadIsBytes (dps : Datapoints) (progId : ℕ) : Bool :=
  match dpsGet dps progId with
  | some (.bytesVal _) => true
  | _ => false

/-- The display key of a registry entry. -/
def entryKey : NumberMappingEntry → String
  | .direct m => m.description.key
  | .virtualEntry m => m.description.key

/-- The datapoint id of a registry entry; a virtual entry has none. -/
def entryDpId : NumberMappingEntry → Option ℕ
  | .direct m => some m.dp_id
  | .virtualEntry _ => none

/-- Every descriptor reachable from a registry: the concatenation of all
product lists and category fallback lists it stores. -/
def allRegistryEntries
    (reg : List (String × TuyaBLECategoryNumberMapping)) :
    List NumberMappingEntry :=
  reg.foldr
    (fun c acc =>
      (match c.2.products with
       | some pm => pm.foldr (fun p a => p.2 ++ a) []
       | none => []) ++
      (match c.2.mapping with
       | some l => l
       | none => []) ++ acc)
    []

theorem dpsGet_dpsSet (dps : Datapoints) (id : ℕ) (v : DPValue) :
    dpsGet (dpsSet dps id v) id = some v := by
  simp [dpsGet, dpsSet, List.lookup]

theorem pyTrunc_intCast (v : ℤ) : pyTrunc ((v : ℚ)) = v := by
  unfold pyTrunc
  by_cases h : (v : ℚ) < 0
  · rw [if_pos h, ← Int.cast_neg, Int.floor_intCast, neg_neg]
  · rw [if_neg h, Int.floor_intCast]

theorem intFromBytesBE_toBytesBE2 (n : ℕ) :
    intFromBytesBE (toBytesBE2 n) = n := by
  simp only [intFromBytesBE, toBytesBE2, List.foldl]
  omega

/-- C1: for every fingerbot product with a program datapoint configured,
`is_fingerbot_repeat_count_available` returns the conjunction of the mode
condition (mode datapoint value equals 2) and the program condition (the
16-bit big-endian integer from bytes [0:2] of the program payload is not
0xFFFF), an absent datapoint counting as satisfied on either side; with
mode value 2, program bytes FF FF 05 give false and 00 05 05 give true. -/
theorem fingerbot_repeat_count_availability :
    (∀ (modeId progId : ℕ) (dps : Datapoints),
      is_fingerbot_repeat_count_available
          ⟨some ⟨modeId, some progId⟩⟩ dps =
        (modeConditionSatisfied dps modeId &&
         programConditionSatisfied dps progId)) ∧
    is_fingerbot_repeat_count_available ⟨some ⟨8, some 121⟩⟩
      [(8, .intVal 2), (121, .bytesVal [0xFF, 0xFF, 0x05])] = false ∧
    is_fingerbot_repeat_count_available ⟨some ⟨8, some 121⟩⟩
      [(8, .intVal 2), (121, .bytesVal [0x00, 0x05, 0x05])] = true := by
  refine ⟨?_, by decide, by decide⟩
  intro modeId progId dps
  simp only [is_fingerbot_repeat_count_available, modeConditionSatisfied,
    programConditionSatisfied]
  cases h1 : dpsGet dps modeId with
  | none =>
    cases h2 : dpsGet dps progId with
    | none => simp
    | some dp => cases dp <;> simp
  | some dp =>
    cases dp with
    | intVal n =>
      cases hb : (n == 2) with
      | false => simp [dpIsInt2, hb]
      | true =>
        cases h2 : dpsGet dps progId with
        | none => simp [dpIsInt2, hb]
        | some dp2 => cases dp2 <;> simp [dpIsInt2, hb]
    | bytesVal bs => simp [dpIsInt2]

/-- C2 counterexample: with the `time_use` descriptor (coefficient 1) and
`set_value(1.5)`, the adapter writes the integer `int(1.5 * 1) = 1` to the
datapoint, while the claimed `round(1.5 * 1)` is 2. -/
theorem direct_adapter_set_truncates_counterexample :
    TuyaBLENumber.set_native_value (.direct time_use_mapping) ⟨none⟩ []
        (3 / 2) = .ok [(9, .intVal 1)] ∧
    pyRound ((3 / 2) * time_use_mapping.coefficient) = 2 := by
  constructor
  · have h : TuyaBLENumber.set_native_value (.direct time_use_mapping) ⟨none⟩
        [] (3 / 2) = .ok (dpsSet [] 9 (.intVal (pyTrunc ((3 / 2) * 1)))) :=
      rfl
    rw [h]
    norm_num [pyTrunc, dpsSet]
  · show pyRound ((3 / 2) * 1) = 2
    norm_num [pyRound]

/-- C2 (amended): for a direct adapter without a custom getter whose bound
datapoint holds an integer, `native_value` is the stored integer divided by
the coefficient; for a direct adapter without a custom setter, `set_value`
writes `int(v * coefficient)`, i.e. the product truncated toward zero (not
rounded). -/
theorem direct_adapter_value_translation :
    (∀ (m : TuyaBLENumberMapping) (p : TuyaBLEProductInfo)
       (dps : Datapoints) (n : ℤ),
      m.getter = .none → m.coefficient ≠ 0 →
      dpsGet dps m.dp_id = some (.intVal n) →
      TuyaBLENumber.native_value (.direct m) p dps =
        .ok (some ((n : ℚ) / m.coefficient))) ∧
    (∀ (m : TuyaBLENumberMapping) (p : TuyaBLEProductInfo)
       (dps : Datapoints) (v : ℚ),
      m.setter = .none →
      TuyaBLENumber.set_native_value (.direct m) p dps v =
        .ok (dpsSet dps m.dp_id (.intVal (pyTrunc (v * m.coefficient))))) := by
  constructor
  · intro m p dps n hg hc hdp
    simp [TuyaBLENumber.native_value, hg, hdp, hc]
  · intro m p dps v hs
    simp [TuyaBLENumber.set_native_value, hs]

/-- Witness for C2: evaluating both directions of the amended claim on the
`time_use` descriptor at concrete inputs. -/
theorem direct_adapter_value_translation_witness :
    TuyaBLENumber.native_value (.direct time_use_mapping) ⟨none⟩
        [(9, .intVal 600)] = .ok (some 600) ∧
    TuyaBLENumber.set_native_value (.direct time_use_mapping) ⟨none⟩ [] 7 =
      .ok [(9, .intVal 7)] := by
  constructor
  · have h := direct_adapter_value_translation.1 time_use_mapping ⟨none⟩
      [(9, .intVal 600)] 600 rfl (by norm_num [time_use_mapping]) rfl
    rw [h]
    norm_num [time_use_mapping]
  · have h := direct_adapter_value_translation.2 time_use_mapping ⟨none⟩ [] 7
      rfl
    rw [h]
    norm_num [time_use_mapping, pyTrunc, dpsSet]

/-- C3 counterexample: on the bytes payload `[0, 0]` (length 2), the
idle-position encoder raises `IndexError` instead of writing a payload
differing only at index 2. -/
theorem idle_position_encoder_short_payload_counterexample :
    set_fingerbot_program_position ⟨some ⟨8, some 121⟩⟩
      [(121, .bytesVal [0, 0])] 37 = .error .indexError := rfl

/-- C3 (amended): for every bytes program payload and in-range value, the
repeat-count encoder writes the two-byte big-endian value followed by the
input payload from offset 2 on, so bytes beyond offset 2 are unchanged; the
idle-position encoder writes a payload differing only at index 2 when the
payload has length at least 3, and raises `IndexError` with no write on
shorter bytes payloads. -/
theorem program_encoders_preserve_unrelated_bytes :
    (∀ (modeId progId : ℕ) (dps : Datapoints) (bs : List ℕ) (v : ℚ),
      dpsGet dps progId = some (.bytesVal bs) →
      0 ≤ pyTrunc v → pyTrunc v < 65536 →
      set_fingerbot_program_repeat_count ⟨some ⟨modeId, some progId⟩⟩ dps v =
        .ok (dpsSet dps progId
          (.bytesVal (toBytesBE2 (pyTrunc v).toNat ++ bs.drop 2))) ∧
      (toBytesBE2 (pyTrunc v).toNat ++ bs.drop 2).drop 2 = bs.drop 2) ∧
    (∀ (modeId progId : ℕ) (dps : Datapoints) (bs : List ℕ) (v : ℚ),
      dpsGet dps progId = some (.bytesVal bs) → 2 < bs.length →
      0 ≤ pyTrunc v → pyTrunc v < 256 →
      set_fingerbot_program_position ⟨some ⟨modeId, some progId⟩⟩ dps v =
        .ok (dpsSet dps progId (.bytesVal (bs.set 2 (pyTrunc v).toNat))) ∧
      (bs.set 2 (pyTrunc v).toNat).length = bs.length ∧
      ∀ i : ℕ, i ≠ 2 → (bs.set 2 (pyTrunc v).toNat)[i]? = bs[i]?) ∧
    (∀ (modeId progId : ℕ) (dps : Datapoints) (bs : List ℕ) (v : ℚ),
      dpsGet dps progId = some (.bytesVal bs) → bs.length ≤ 2 →
      set_fingerbot_program_position ⟨some ⟨modeId, some progId⟩⟩ dps v =
        .error .indexError) := by
  refine ⟨?_, ?_, ?_⟩
  · intro modeId progId dps bs v hdp h0 h1
    refine ⟨?_, List.drop_left' rfl⟩
    simp [set_fingerbot_program_repeat_count, hdp, h0, h1]
  · intro modeId progId dps bs v hdp hlen h0 h1
    refine ⟨?_, List.length_set bs 2 _, ?_⟩
    · simp [set_fingerbot_program_position, hdp, hlen, h0, h1]
    · intro i hi
      rw [List.getElem?_set_ne (by omega)]
  · intro modeId progId dps bs v hdp hlen
    simp [set_fingerbot_program_position, hdp, Nat.not_lt.mpr hlen]

/-- Witness for C3: both encoders evaluated on the payload
`[10, 20, 30, 40]`, and the short-payload branch on `[1, 2]`. -/
theorem program_encoders_preserve_unrelated_bytes_witness :
    set_fingerbot_program_repeat_count ⟨some ⟨8, some 121⟩⟩
        [(121, .bytesVal [10, 20, 30, 40])] 513 =
      .ok [(121, .bytesVal [2, 1, 30, 40])] ∧
    set_fingerbot_program_position ⟨some ⟨8, some 121⟩⟩
        [(121, .bytesVal [10, 20, 30, 40])] 37 =
      .ok [(121, .bytesVal [10, 20, 37, 40])] ∧
    set_fingerbot_program_position ⟨some ⟨8, some 121⟩⟩
        [(121, .bytesVal [1, 2])] 37 = .error .indexError := by
  have hts : pyTrunc 513 = 513 := by
    have := pyTrunc_intCast 513
    norm_num at this
    exact this
  have htp : pyTrunc 37 = 37 := by
    have := pyTrunc_intCast 37
    norm_num at this
    exact this
  refine ⟨?_, ?_, ?_⟩
  · have h := (program_encoders_preserve_unrelated_bytes.1 8 121
      [(121, .bytesVal [10, 20, 30, 40])] [10, 20, 30, 40] 513 rfl
      (by rw [hts]; norm_num) (by rw [hts]; norm_num)).1
    rw [h, hts]
    rfl
  · have h := (program_encoders_preserve_unrelated_bytes.2.1 8 121
      [(121, .bytesVal [10, 20, 30, 40])] [10, 20, 30, 40] 37 rfl
      (by norm_num) (by rw [htp]; norm_num) (by rw [htp]; norm_num)).1
    rw [h, htp]
    rfl
  · exact program_encoders_preserve_unrelated_bytes.2.2 8 121
      [(121, .bytesVal [1, 2])] [1, 2] 37 rfl (by norm_num)

/-- C4: for every bytes program payload of length at least 2 and every
integer v in [1, 0xFFFE], encoding v with the repeat-count setter and
decoding the resulting payload with the repeat-count getter returns v, and
all bytes of the resulting payload beyond offset 2 equal those of the
input payload. -/
theorem repeat_count_roundtrip (modeId progId : ℕ) (dps : Datapoints)
    (bs : List ℕ) (v : ℤ)
    (hdp : dpsGet dps progId = some (.bytesVal bs)) (hlen : 2 ≤ bs.length)
    (hv1 : 1 ≤ v) (hv2 : v ≤ 0xFFFE) :
    set_fingerbot_program_repeat_count ⟨some ⟨modeId, some progId⟩⟩ dps
        ((v : ℚ)) =
      .ok (dpsSet dps progId (.bytesVal (toBytesBE2 v.toNat ++ bs.drop 2))) ∧
    get_fingerbot_program_repeat_count ⟨some ⟨modeId, some progId⟩⟩
        (dpsSet dps progId (.bytesVal (toBytesBE2 v.toNat ++ bs.drop 2))) =
      some ((v : ℚ)) ∧
    (toBytesBE2 v.toNat ++ bs.drop 2).drop 2 = bs.drop 2 := by
  have ht : pyTrunc ((v : ℚ)) = v := pyTrunc_intCast v
  refine ⟨?_, ?_, List.drop_left' rfl⟩
  · simp only [set_fingerbot_program_repeat_count, hdp, ht]
    rw [if_pos (show (0 : ℤ) ≤ v ∧ v < 65536 by omega)]
  · simp only [get_fingerbot_program_repeat_count, dpsGet_dpsSet]
    rw [List.take_left'
        (show (toBytesBE2 v.toNat).length = 2 from rfl),
      intFromBytesBE_toBytesBE2]
    have hc : ((v.toNat : ℚ)) = (v : ℚ) := by
      rw [show ((v.toNat : ℚ)) = (((v.toNat : ℤ) : ℚ)) by push_cast; ring,
        Int.toNat_of_nonneg (by omega)]
    rw [hc]

/-- Witness for C4: encoding repeat count 1000 into the payload
`[1, 2, 3, 4]` writes `[3, 232, 3, 4]` and decodes back to 1000. -/
theorem repeat_count_roundtrip_witness :
    set_fingerbot_program_repeat_count ⟨some ⟨8, some 121⟩⟩
        [(121, .bytesVal [1, 2, 3, 4])] 1000 =
      .ok [(121, .bytesVal [3, 232, 3, 4])] ∧
    get_fingerbot_program_repeat_count ⟨some ⟨8, some 121⟩⟩
        [(121, .bytesVal [3, 232, 3, 4])] = some 1000 := by
  have h := repeat_count_roundtrip 8 121 [(121, .bytesVal [1, 2, 3, 4])]
    [1, 2, 3, 4] 1000 rfl (by norm_num) (by norm_num) (by norm_num)
  have hcast : (((1000 : ℤ) : ℚ)) = (1000 : ℚ) := by norm_num
  constructor
  · have h1 := h.1
    rw [hcast] at h1
    rw [h1]
    rfl
  · have h2 := h.2.1
    have hstore : dpsSet [(121, DPValue.bytesVal [1, 2, 3, 4])] 121
        (.bytesVal (toBytesBE2 (1000 : ℤ).toNat ++ [1, 2, 3, 4].drop 2)) =
        [(121, DPValue.bytesVal [3, 232, 3, 4])] := rfl
    rw [hstore] at h2
    rw [h2, hcast]

/-- C5: for every (category, product_id) pair, `get_mapping_by_device`
returns the exact configured list when the pair is present; the category's
fallback list when the category is present with a product map that misses
the product_id and a fallback is defined; and the empty sequence when the
category is unknown or the product map misses the product_id with no
fallback defined. -/
theorem registry_resolution :
    (∀ (reg : List (String × TuyaBLECategoryNumberMapping)) (c pid : String)
       (cat : TuyaBLECategoryNumberMapping)
       (pm : List (String × List NumberMappingEntry))
       (l : List NumberMappingEntry),
      List.lookup c reg = some cat → cat.products = some pm →
      List.lookup pid pm = some l →
      get_mapping_by_device reg c pid = l) ∧
    (∀ (reg : List (String × TuyaBLECategoryNumberMapping)) (c pid : String)
       (cat : TuyaBLECategoryNumberMapping)
       (pm : List (String × List NumberMappingEntry))
       (fb : List NumberMappingEntry),
      List.lookup c reg = some cat → cat.products = some pm →
      List.lookup pid pm = none → cat.mapping = some fb →
      get_mapping_by_device reg c pid = fb) ∧
    (∀ (reg : List (String × TuyaBLECategoryNumberMapping)) (c pid : String),
      List.lookup c reg = none → get_mapping_by_device reg c pid = []) ∧
    (∀ (reg : List (String × TuyaBLECategoryNumberMapping)) (c pid : String)
       (cat : TuyaBLECategoryNumberMapping)
       (pm : List (String × List NumberMappingEntry)),
      List.lookup c reg = some cat → cat.products = some pm →
      List.lookup pid pm = none → cat.mapping = none →
      get_mapping_by_device reg c pid = []) := by
  refine ⟨?_, ?_, ?_, ?_⟩
  · intro reg c pid cat pm l h1 h2 h3
    simp [get_mapping_by_device, h1, h2, h3]
  · intro reg c pid cat pm fb h1 h2 h3 h4
    simp [get_mapping_by_device, h1, h2, h3, h4]
  · intro reg c pid h1
    simp [get_mapping_by_device, h1]
  · intro reg c pid cat pm h1 h2 h3 h4
    simp [get_mapping_by_device, h1, h2, h3, h4]

/-- Witness for C5: the four resolution cases at concrete inputs — an exact
match in the module registry, a fallback hit on a registry with a category
fallback list, an unknown category, and an unmatched product id with no
fallback. -/
theorem registry_resolution_witness :
    get_mapping_by_device mapping "wsdcg" "ojzlzzsw" = wsdcg_ojzlzzsw ∧
    get_mapping_by_device
        [("x", { products := some [], mapping := some wk_trv })] "x" "y" =
      wk_trv ∧
    get_mapping_by_device mapping "unknown_cat" "p" = [] ∧
    get_mapping_by_device mapping "wsdcg" "unknown_pid" = [] := by
  refine ⟨?_, ?_, ?_, ?_⟩
  · exact registry_resolution.1 mapping "wsdcg" "ojzlzzsw" wsdcg_category
      (dictLit [("ojzlzzsw", wsdcg_ojzlzzsw)]) wsdcg_ojzlzzsw rfl rfl rfl
  · exact registry_resolution.2.1
      [("x", { products := some [], mapping := some wk_trv })] "x" "y"
      { products := some [], mapping := some wk_trv } [] wk_trv rfl rfl rfl
      rfl
  · exact registry_resolution.2.2.1 mapping "unknown_cat" "p" rfl
  · exact registry_resolution.2.2.2 mapping "wsdcg" "unknown_pid"
      wsdcg_category (dictLit [("ojzlzzsw", wsdcg_ojzlzzsw)]) rfl rfl rfl rfl

/-- C6: evaluating the virtual watering-duration entity.  The initial value
is the default 900, but activation raises `NameError` (the module never
imports `os`), and `set_value(120)` updates only the in-memory value before
raising `NameError` itself, never writing the local record; hence after a
restart in which only local storage survives, the restored value is 900
again, not 120. -/
theorem virtual_number_persistence_name_error :
    TuyaBLEVirtualNumber.initial_value watering_duration_mapping = 900 ∧
    TuyaBLEVirtualNumber.async_added_to_hass watering_duration_mapping 900
        {} = (900, .error .nameError) ∧
    TuyaBLEVirtualNumber.async_set_native_value 120 {} =
      (120, {}, .error .nameError) ∧
    (TuyaBLEVirtualNumber.async_set_native_value 120 {}).2.1.storageRecord =
      none ∧
    TuyaBLEVirtualNumber.async_added_to_hass watering_duration_mapping 900
        { lastState := none,
          storageRecord :=
            (TuyaBLEVirtualNumber.async_set_native_value
              120 {}).2.1.storageRecord } =
      (900, .error .nameError) ∧
    (900 : ℚ) ≠ 120 := by
  refine ⟨rfl, rfl, rfl, rfl, rfl, by norm_num⟩

/-- C7 counterexample: the idle-position getter raises `IndexError` on the
bytes payload `[5]` instead of returning `None`. -/
theorem idle_position_getter_short_payload_counterexample :
    get_fingerbot_program_position ⟨some ⟨8, some 121⟩⟩
      [(121, .bytesVal [5])] = .error .indexError := rfl

/-- C7 (amended): the composite accessors guard the payload type — on a
non-bytes (or absent) program payload every accessor returns `None` /
performs no write and never raises.  Insufficient length is not guarded:
the idle-position getter raises `IndexError` on bytes payloads shorter than
3 (and the setter likewise, shown in the encoder theorem), while the
repeat-count getter returns the decoded short prefix — a number, not
`None` — on payloads shorter than 2. -/
theorem composite_accessor_guards :
    (∀ (modeId progId : ℕ) (dps : Datapoints),
      programPayloadIsBytes dps progId = false →
      get_fingerbot_program_repeat_count ⟨some ⟨modeId, some progId⟩⟩ dps =
        none ∧
      get_fingerbot_program_position ⟨some ⟨modeId, some progId⟩⟩ dps =
        .ok none ∧
      (∀ v, set_fingerbot_program_repeat_count
        ⟨some ⟨modeId, some progId⟩⟩ dps v = .ok dps) ∧
      (∀ v, set_fingerbot_program_position
        ⟨some ⟨modeId, some progId⟩⟩ dps v = .ok dps)) ∧
    (∀ (modeId progId : ℕ) (dps : Datapoints) (bs : List ℕ),
      dpsGet dps progId = some (.bytesVal bs) → bs.length ≤ 2 →
      get_fingerbot_program_position ⟨some ⟨modeId, some progId⟩⟩ dps =
        .error .indexError) ∧
    (∀ (modeId progId : ℕ) (dps : Datapoints) (bs : List ℕ),
      dpsGet dps progId = some (.bytesVal bs) →
      get_fingerbot_program_repeat_count ⟨some ⟨modeId, some progId⟩⟩ dps =
        some ((intFromBytesBE (bs.take 2) : ℚ))) := by
  refine ⟨?_, ?_, ?_⟩
  · intro modeId progId dps hguard
    cases h : dpsGet dps progId with
    | none =>
      refine ⟨?_, ?_, fun v => ?_, fun v => ?_⟩ <;>
        simp [get_fingerbot_program_repeat_count,
          get_fingerbot_program_position, set_fingerbot_program_repeat_count,
          set_fingerbot_program_position, h]
    | some dp =>
      cases dp with
      | intVal n =>
        refine ⟨?_, ?_, fun v => ?_, fun v => ?_⟩ <;>
          simp [get_fingerbot_program_repeat_count,
            get_fingerbot_program_position,
            set_fingerbot_program_repeat_count,
            set_fingerbot_program_position, h]
      | bytesVal bs =>
        rw [programPayloadIsBytes, h] at hguard
        simp at hguard
  · intro modeId progId dps bs h hlen
    have hget : bs[2]? = none := List.getElem?_eq_none (by omega)
    simp [get_fingerbot_program_position, h, hget]
  · intro modeId progId dps bs h
    simp [get_fingerbot_program_repeat_count, h]

/-- Witness for C7: a non-bytes payload yields `None` from the repeat-count
getter, and a two-byte payload sends the idle-position getter through the
`IndexError` branch while the repeat-count getter still returns a value. -/
theorem composite_accessor_guards_witness :
    get_fingerbot_program_repeat_count ⟨some ⟨8, some 121⟩⟩
        [(121, .intVal 4)] = none ∧
    get_fingerbot_program_position ⟨some ⟨8, some 121⟩⟩
        [(121, .bytesVal [7, 9])] = .error .indexError ∧
    get_fingerbot_program_repeat_count ⟨some ⟨8, some 121⟩⟩
        [(121, .bytesVal [7, 9])] = some 1801 := by
  refine ⟨?_, ?_, ?_⟩
  · exact (composite_accessor_guards.1 8 121 [(121, .intVal 4)] rfl).1
  · exact composite_accessor_guards.2.1 8 121 [(121, .bytesVal [7, 9])]
      [7, 9] rfl (by norm_num)
  · have h := composite_accessor_guards.2.2 8 121 [(121, .bytesVal [7, 9])]
      [7, 9] rfl
    rw [h]
    norm_num [intFromBytesBE]

/-- C8: for every direct adapter with no custom getter whose datapoint id
is absent from the store, `native_value` returns the descriptor's
configured minimum value — never `None` and never an error. -/
theorem missing_datapoint_min_fallback (m : TuyaBLENumberMapping)
    (p : TuyaBLEProductInfo) (dps : Datapoints)
    (hg : m.getter = .none) (hdp : dpsGet dps m.dp_id = none) :
    TuyaBLENumber.native_value (.direct m) p dps =
      .ok (some m.description.native_min_value) := by
  simp [TuyaBLENumber.native_value, hg, hdp]

/-- Witness for C8: the reporting-period descriptor on an empty store
yields its configured minimum, 1. -/
theorem missing_datapoint_min_fallback_witness :
    TuyaBLENumber.native_value (.direct reporting_period_mapping) ⟨none⟩ [] =
      .ok (some 1) := by
  have h := missing_datapoint_min_fallback reporting_period_mapping ⟨none⟩ []
    rfl rfl
  rw [h]
  rfl

/-- C9: the `"ggq"` dict display defines `"hfgdqhho"` twice with different
descriptor lists; the second definition silently replaces the first, so
resolution returns exactly the second list (keys `countdown_duration_z1`
and `countdown_duration_z2` on dp ids 106 and 103) and no descriptor with
key `countdown_duration_1` or `countdown_duration_2` is reachable from the
registry. -/
theorem duplicate_product_key_last_wins :
    (ggq_products_literal.filter (fun p => p.1 == "hfgdqhho")).length = 2 ∧
    ggq_hfgdqhho_sgw08.map entryKey ≠ ggq_hfgdqhho_sgw02.map entryKey ∧
    get_mapping_by_device mapping "ggq" "hfgdqhho" = ggq_hfgdqhho_sgw02 ∧
    ggq_hfgdqhho_sgw02.map entryKey =
      ["countdown_duration_z1", "countdown_duration_z2"] ∧
    ggq_hfgdqhho_sgw02.map entryDpId = [some 106, some 103] ∧
    (allRegistryEntries mapping).all
      (fun e => entryKey e != "countdown_duration_1" &&
        entryKey e != "countdown_duration_2") = true := by
  refine ⟨rfl, by decide, rfl, rfl, rfl, by decide⟩

/-- Every accumulator step of the setup loop keeps the invariant that all
constructed entities are `TuyaBLENumber`s. -/
theorem setupStep_ok_all (dps : Datapoints)
    (acc : List ConstructedEntity) (e : NumberMappingEntry)
    (acc' : List ConstructedEntity)
    (hacc : acc.all isNumberEntity = true)
    (hstep : setupStep dps acc e = .ok acc') :
    acc'.all isNumberEntity = true := by
  unfold setupStep at hstep
  split at hstep
  · cases hstep
    simp [List.all_append, hacc, isNumberEntity]
  · split at hstep
    · cases hstep
      simp [List.all_append, hacc, isNumberEntity]
    · cases hstep
      exact hacc
    · cases hstep

/-- The setup loop preserves the `TuyaBLENumber`-only invariant. -/
theorem foldlM_setupStep_all_number (dps : Datapoints)
    (l : List NumberMappingEntry) :
    ∀ acc : List ConstructedEntity, acc.all isNumberEntity = true →
      allConstructedAreNumber (l.foldlM (setupStep dps) acc) = true := by
  induction l with
  | nil =>
    intro acc hacc
    simpa [allConstructedAreNumber, List.foldlM, pure, Except.pure]
      using hacc
  | cons e l ih =>
    intro acc hacc
    rw [List.foldlM_cons]
    cases hstep : setupStep dps acc e with
    | error err =>
      simp [allConstructedAreNumber, hstep, Bind.bind, Except.bind]
    | ok acc' =>
      have hacc' := setupStep_ok_all dps acc e acc' hacc hstep
      simpa [Bind.bind, Except.bind] using ih acc' hacc'

/-- C10: setup for the Smart Water Valve constructs a `TuyaBLENumber` for
every resolved descriptor including the virtual `watering_duration` entry
(all `force_add` flags default to true); the setup loop only ever
constructs `TuyaBLENumber`s, never a `TuyaBLEVirtualNumber`; and reading
`native_value` of the adapter built from the virtual descriptor — which
has no custom getter and no `dp_id` field — raises `AttributeError`
instead of returning the descriptor's default value. -/
theorem setup_wraps_virtual_descriptor_in_datapoint_adapter :
    async_setup_entry mapping "sfkzq" "nxquc5lb" [] =
      .ok [.number (.direct time_use_mapping),
        .number (.direct countdown_mapping),
        .number (.virtualEntry watering_duration_mapping)] ∧
    (∀ (reg : List (String × TuyaBLECategoryNumberMapping))
       (c pid : String) (dps : Datapoints),
      allConstructedAreNumber (async_setup_entry reg c pid dps) = true) ∧
    (∀ (p : TuyaBLEProductInfo) (dps : Datapoints),
      TuyaBLENumber.native_value
          (.virtualEntry watering_duration_mapping) p dps =
        .error .attributeError) := by
  refine ⟨rfl, ?_, fun p dps => rfl⟩
  intro reg c pid dps
  exact foldlM_setupStep_all_number dps (get_mapping_by_device reg c pid)
    [] rfl
